import Mathlib

/-
Verification development for the multimodal media-search system
(folder watching, debounced event handling, indexing jobs, embedding
upserts, similarity search and deletion tracking).

The Python sources are shallowly embedded as pure Lean functions:
  - wall-clock instants and the debounce cooldown are integers (only order comparisons are observed),
  - the SQLite database is a record of lists of rows (row order models
    insertion order, which is the iteration order the code relies on),
  - the embedding model is an opaque provider record returning
    `Option` vectors (vectors are lists of integers (float rounding is never observed by the claims, only comparisons)),
  - the filesystem is a list of (path, size) entries standing for the
    regular, readable files on disk,
  - numpy`s .npy blob format is modelled as a length-prefixed payload,
    which keeps the property that the encoding is self-describing.
Timestamps created_at/modified_at of rows, wall-clock query timing and
log output are not modelled; they are not observed by any property here.
-/

namespace MMS

/-! ## String helpers (models of the Python `str` / `pathlib` operations) -/

/-- Model of Python `str.startswith` (structural on the character lists,
so that it evaluates inside the kernel). -/
def charsStartWith : List Char → List Char → Bool
  | _, [] => true
  | [], _ :: _ => false
  | c :: cs, d :: ds => c == d && charsStartWith cs ds

/-- `s.startswith p` on strings. -/
def strStartsWith (s p : String) : Bool :=
  charsStartWith s.data p.data

/-- `s.endswith p` on strings (used for the `rglob("*" + ext)` match). -/
def strEndsWith (s p : String) : Bool :=
  charsStartWith s.data.reverse p.data.reverse

/-- ASCII lower-casing of one character; Python `str.lower` restricted to
the ASCII range, which covers every extension literal in the code. -/
def lowerChar (c : Char) : Char :=
  if c == 'A' then 'a' else if c == 'B' then 'b' else if c == 'C' then 'c'
  else if c == 'D' then 'd' else if c == 'E' then 'e' else if c == 'F' then 'f'
  else if c == 'G' then 'g' else if c == 'H' then 'h' else if c == 'I' then 'i'
  else if c == 'J' then 'j' else if c == 'K' then 'k' else if c == 'L' then 'l'
  else if c == 'M' then 'm' else if c == 'N' then 'n' else if c == 'O' then 'o'
  else if c == 'P' then 'p' else if c == 'Q' then 'q' else if c == 'R' then 'r'
  else if c == 'S' then 's' else if c == 'T' then 't' else if c == 'U' then 'u'
  else if c == 'V' then 'v' else if c == 'W' then 'w' else if c == 'X' then 'x'
  else if c == 'Y' then 'y' else if c == 'Z' then 'z' else c

/-- `str.lower` on strings. -/
def lowerString (s : String) : String :=
  String.mk (s.data.map lowerChar)

/-- The basename of a path: everything after the final slash
(model of `pathlib.Path(p).name`). -/
def baseName (p : String) : String :=
  String.mk ((p.data.reverse.takeWhile (fun c => !(c == '/'))).reverse)

/-- Model of `pathlib.Path(p).suffix`: the extension from the last dot of
the basename, empty when the basename has no dot or only a leading dot. -/
def pathSuffix (p : String) : String :=
  let name := (p.data.reverse.takeWhile (fun c => !(c == '/')))
  -- `name` is the basename reversed; chars after the last dot come first.
  let afterRev := name.takeWhile (fun c => !(c == '.'))
  let rest := name.dropWhile (fun c => !(c == '.'))
  match rest with
  | [] => ""
  | [_] => ""
  | _ :: _ :: _ => String.mk ('.' :: afterRev.reverse)

/-! ## ModalityDetector (app/core/file_processor.py) -/

namespace ModalityDetector

/-- AUDIO_EXTENSIONS from file_processor.py (set literal, kept in source
order). -/
def AUDIO_EXTENSIONS : List String :=
  [".mp3", ".wav", ".flac", ".aac", ".ogg", ".m4a", ".wma", ".opus"]

/-- VIDEO_EXTENSIONS from file_processor.py. -/
def VIDEO_EXTENSIONS : List String :=
  [".mp4", ".avi", ".mov", ".mkv", ".webm", ".flv", ".wmv", ".m4v"]

/-- ModalityDetector.detect: classify a path by its lower-cased suffix. -/
def detect (file_path : String) : Option String :=
  let ext := lowerString (pathSuffix file_path)
  if AUDIO_EXTENSIONS.contains ext then some "audio"
  else if VIDEO_EXTENSIONS.contains ext then some "video"
  else none

/-- ModalityDetector.is_supported. -/
def is_supported (file_path : String) : Bool :=
  (detect file_path).isSome

end ModalityDetector

/-! ## Event debouncer (app/monitoring/event_handler.py) -/

/-- The three queued intent kinds (the strings used by the handler). -/
inductive Action where
  | create
  | modify
  | delete
deriving DecidableEq, Repr

/-- One event placed on the shared asyncio queue
(`{"action", "folder_id", "path"}`). -/
structure QueuedEvent where
  action : Action
  folder_id : Nat
  path : String
deriving DecidableEq, Repr

/-- State of one MultimodalEventHandler plus the shared queue it appends
to: the per-path last-forwarded-time map and the queue contents. -/
structure HandlerState where
  folder_id : Nat
  cooldown : ℤ
  lastEventTime : List (String × ℤ)
  queue : List QueuedEvent
deriving DecidableEq, Repr

/-- `self.last_event_time.get(path, 0)`. -/
def lookupTime (m : List (String × ℤ)) (p : String) : ℤ :=
  match m.find? (fun e => e.1 == p) with
  | some e => e.2
  | none => 0

/-- `self.last_event_time[path] = now` (dict assignment: overwrite the
existing entry or append a new one). -/
def setTime (m : List (String × ℤ)) (p : String) (t : ℤ) : List (String × ℤ) :=
  match m with
  | [] => [(p, t)]
  | (q, u) :: rest => if q == p then (q, t) :: rest else (q, u) :: setTime rest p t

/-- `_should_process`: supported-extension check first, then the per-path
cooldown; the map is written only when the event passes both checks. -/
def should_process (s : HandlerState) (path : String) (now : ℤ) :
    Bool × HandlerState :=
  if !(ModalityDetector.is_supported path) then (false, s)
  else
    let last_time := lookupTime s.lastEventTime path
    if now - last_time < s.cooldown then (false, s)
    else (true, { s with lastEventTime := setTime s.lastEventTime path now })

/-- `_queue_event`: append onto the shared queue. -/
def queue_event (s : HandlerState) (action : Action) (path : String) :
    HandlerState :=
  { s with queue := s.queue ++ [⟨action, s.folder_id, path⟩] }

/-- `on_created`. -/
def on_created (s : HandlerState) (is_directory : Bool) (path : String)
    (now : ℤ) : HandlerState :=
  if is_directory then s
  else
    let (ok, s1) := should_process s path now
    if ok then queue_event s1 Action.create path else s1

/-- `on_modified`. -/
def on_modified (s : HandlerState) (is_directory : Bool) (path : String)
    (now : ℤ) : HandlerState :=
  if is_directory then s
  else
    let (ok, s1) := should_process s path now
    if ok then queue_event s1 Action.modify path else s1

/-- `on_deleted`: queues unconditionally ("process immediately without
cooldown"); note there is no supported-extension check on this path. -/
def on_deleted (s : HandlerState) (is_directory : Bool) (path : String) :
    HandlerState :=
  if is_directory then s
  else queue_event s Action.delete path

/-- `on_moved`: a delete of the source path and a create of the destination
path, each gated by `_should_process` (so both are subject to the
supported-extension check and the cooldown). -/
def on_moved (s : HandlerState) (is_directory : Bool) (src_path dest_path : String)
    (now : ℤ) : HandlerState :=
  if is_directory then s
  else
    let (ok1, s1) := should_process s src_path now
    let s2 := if ok1 then queue_event s1 Action.delete src_path else s1
    let (ok2, s3) := should_process s2 dest_path now
    if ok2 then queue_event s3 Action.create dest_path else s3

/-! ## Data model (app/database/models.py, embedded as rows in lists) -/

/-- A Folder row; `last_indexed_at` is nullable. List position in
`DB.folders` models registration order (SQLite insertion order), which is
the iteration order of `FolderCRUD.list_all`. -/
structure FolderRec where
  id : Nat
  path : String
  modality : String
  is_active : Bool
  last_indexed_at : Option ℤ
deriving DecidableEq, Repr

/-- A File row (creation/modification timestamps are not observed by any
claim and are left out). -/
structure FileRec where
  id : Nat
  folder_id : Nat
  path : String
  filename : String
  modality : String
  file_size : Option ℤ
  mime_type : Option String
  duration_seconds : Option ℤ
  is_deleted : Bool
  deletion_notified : Bool
  indexed_at : Option ℤ
deriving DecidableEq, Repr

/-- The persisted vector payload: numpy`s `.npy` blob is modelled as a
length-prefixed numeric array, keeping the self-describing round-trip
property of the real byte format. -/
structure NpyBlob where
  header : Nat
  data : List ℤ
deriving DecidableEq, Repr

/-- `serialize_array` (crud.py): encode a vector into a blob. -/
def serialize_array (array : List ℤ) : NpyBlob :=
  ⟨array.length, array⟩

/-- `deserialize_array` (crud.py): decode a blob back into a vector,
reading exactly the announced number of entries. -/
def deserialize_array (blob : NpyBlob) : List ℤ :=
  blob.data.take blob.header

/-- An Embedding row; `vector` is the nullable BLOB column. -/
structure EmbeddingRec where
  id : Nat
  file_id : Nat
  modality : String
  embedding_type : String
  vector : Option NpyBlob
deriving DecidableEq, Repr

/-- An IndexingJob row. -/
structure JobRec where
  id : Nat
  job_type : String
  folder_id : Option Nat
  status : String
  total_files : Nat
  processed_files : Nat
  failed_files : Nat
  error_message : Option String
  started_at : Option ℤ
  completed_at : Option ℤ
deriving DecidableEq, Repr

/-- The database: one list per table (list order = insertion order) plus
per-table autoincrement counters. -/
structure DB where
  folders : List FolderRec
  files : List FileRec
  embeddings : List EmbeddingRec
  jobs : List JobRec
  nextFileId : Nat
  nextEmbeddingId : Nat
  nextJobId : Nat
deriving DecidableEq, Repr

/-- The filesystem as seen by the scanner: the regular, readable files on
disk with their sizes (directories and unreadable paths are not listed). -/
structure FSEntry where
  path : String
  size : ℤ
deriving DecidableEq, Repr

abbrev FileSystem := List FSEntry

/-- The opaque Embedding Provider: text queries are aligned per target
modality; audio/video/file inputs yield one optional vector. -/
structure EmbeddingProvider where
  textEmbedding : String → String → Option (List ℤ)
  audioEmbedding : String → Option (List ℤ)
  videoEmbedding : String → Option (List ℤ)
  fileEmbedding : String → String → Option (List ℤ)

/-! ## CRUD layer (app/database/crud.py) -/

/-- Update every file row carrying the given id (unique in any reachable
database) — the ORM writes through the fetched object. -/
def updateFileById (l : List FileRec) (i : Nat) (u : FileRec → FileRec) :
    List FileRec :=
  l.map fun g => if g.id == i then u g else g

/-- The row effect of mark_deleted: soft-delete and reset the notified
flag. -/
def markRow (g : FileRec) : FileRec :=
  { g with is_deleted := true, deletion_notified := false }

/-- The row effect of mark_deletion_notified. -/
def notifyRow (g : FileRec) : FileRec :=
  { g with deletion_notified := true }

/-- Replace the files table of a database (abbreviation used to state
intermediate database values). -/
def withFiles (db : DB) (l : List FileRec) : DB :=
  { db with files := l }

/-- FolderCRUD.get. -/
def FolderCRUD.get (db : DB) (folder_id : Nat) : Option FolderRec :=
  db.folders.find? fun f => f.id == folder_id

/-- FolderCRUD.list_all with `active_only`. -/
def FolderCRUD.list_all (db : DB) (active_only : Bool) : List FolderRec :=
  if active_only then db.folders.filter (fun f => f.is_active) else db.folders

/-- FolderCRUD.update_last_indexed. -/
def FolderCRUD.update_last_indexed (db : DB) (folder_id : Nat) (timestamp : ℤ) :
    DB :=
  match FolderCRUD.get db folder_id with
  | none => db
  | some _ =>
      { db with folders := db.folders.map fun f =>
          if f.id == folder_id then { f with last_indexed_at := some timestamp }
          else f }

/-- FileCRUD.get. -/
def FileCRUD.get (db : DB) (file_id : Nat) : Option FileRec :=
  db.files.find? fun f => f.id == file_id

/-- FileCRUD.get_by_path. -/
def FileCRUD.get_by_path (db : DB) (path : String) : Option FileRec :=
  db.files.find? fun f => f.path == path

/-- FileCRUD.create (duration defaults to None in every call site that the
claims cover). Returns the refreshed row and the new database. -/
def FileCRUD.create (db : DB) (folder_id : Nat) (path filename modality : String)
    (file_size : Option ℤ) (mime_type : Option String) : FileRec × DB :=
  let f : FileRec :=
    { id := db.nextFileId, folder_id := folder_id, path := path,
      filename := filename, modality := modality, file_size := file_size,
      mime_type := mime_type, duration_seconds := none, is_deleted := false,
      deletion_notified := false, indexed_at := none }
  (f, { db with files := db.files ++ [f], nextFileId := db.nextFileId + 1 })

/-- FileCRUD.mark_deleted: soft delete and reset the notified flag. -/
def FileCRUD.mark_deleted (db : DB) (path : String) : Bool × DB :=
  match FileCRUD.get_by_path db path with
  | none => (false, db)
  | some file =>
      (true, { db with files := updateFileById db.files file.id fun g =>
          { g with is_deleted := true, deletion_notified := false } })

/-- FileCRUD.mark_deletion_notified. -/
def FileCRUD.mark_deletion_notified (db : DB) (file_id : Nat) : Bool × DB :=
  match FileCRUD.get db file_id with
  | none => (false, db)
  | some _ =>
      (true, { db with files := updateFileById db.files file_id fun g =>
          { g with deletion_notified := true } })

/-- FileCRUD.update_indexed_at (the wall clock is passed in explicitly). -/
def FileCRUD.update_indexed_at (db : DB) (file_id : Nat) (now : ℤ) : DB :=
  match FileCRUD.get db file_id with
  | none => db
  | some _ =>
      { db with files := updateFileById db.files file_id fun g =>
          { g with indexed_at := some now } }

/-- EmbeddingCRUD.get_by_file. -/
def EmbeddingCRUD.get_by_file (db : DB) (file_id : Nat) : List EmbeddingRec :=
  db.embeddings.filter fun e => e.file_id == file_id

/-- EmbeddingCRUD.create: serializes the vector into the row. -/
def EmbeddingCRUD.create (db : DB) (file_id : Nat) (vector : List ℤ)
    (modality embedding_type : String) : EmbeddingRec × DB :=
  let e : EmbeddingRec :=
    { id := db.nextEmbeddingId, file_id := file_id, modality := modality,
      embedding_type := embedding_type, vector := some (serialize_array vector) }
  (e,
   { db with
      embeddings := db.embeddings ++ [e]
      nextEmbeddingId := db.nextEmbeddingId + 1 })

/-! ## Similarity scan (EmbeddingCRUD.search_similar) -/

/-- Plain dot product (`np.dot`) of two vectors. -/
def dotProduct (a b : List ℤ) : ℤ :=
  (List.zipWith (fun x y => x * y) a b).sum

/-- Descending-by-key order used by every ranking sort: `a` may stay in
front of `b` exactly when `key b ≤ key a`.  Inserting with this relation
reproduces Python`s stable `list.sort(key=..., reverse=True)`. -/
def byKeyDesc {α : Type} (key : α → ℤ) (a b : α) : Prop :=
  key b ≤ key a

instance {α : Type} (key : α → ℤ) : DecidableRel (byKeyDesc key) :=
  fun a b => inferInstanceAs (Decidable (key b ≤ key a))

instance {α : Type} (key : α → ℤ) : IsTotal α (byKeyDesc key) :=
  ⟨fun a b => le_total (key b) (key a)⟩

instance {α : Type} (key : α → ℤ) : IsTrans α (byKeyDesc key) :=
  ⟨fun _ _ _ h1 h2 => le_trans h2 h1⟩

/-- The SQL join `select(File, Embedding).join(... File.id == Embedding.file_id)`:
each embedding row paired with its owning file row. -/
def joinRows (db : DB) : List (FileRec × EmbeddingRec) :=
  db.embeddings.filterMap fun e =>
    (db.files.find? fun f => f.id == e.file_id).map fun f => (f, e)

/-- The WHERE clauses of `search_similar`: vector not null, optional
modality filter, optional folder filter (a `None` or *empty* folder list
is falsy in Python, so it applies no restriction), optional exclusion of
soft-deleted files. -/
def searchRowPred (modality : Option String) (folder_ids : Option (List Nat))
    (exclude_deleted : Bool) (fe : FileRec × EmbeddingRec) : Bool :=
  fe.2.vector.isSome &&
  (match modality with
   | none => true
   | some m => if m == "" then true else fe.2.modality == m) &&
  (match folder_ids with
   | none => true
   | some ids => if ids.isEmpty then true else ids.contains fe.1.folder_id) &&
  (if exclude_deleted then !fe.1.is_deleted else true)

/-- The Python scoring loop: skip null vectors, deserialize, dot-product
against the query, keep only scores reaching the threshold. -/
def scoreRows (query_vector : List ℤ) (threshold : ℤ)
    (rows : List (FileRec × EmbeddingRec)) : List (FileRec × ℤ) :=
  rows.filterMap fun fe =>
    match fe.2.vector with
    | none => none
    | some blob =>
        let similarity := dotProduct query_vector (deserialize_array blob)
        if threshold ≤ similarity then some (fe.1, similarity) else none

/-- EmbeddingCRUD.search_similar: filter, score, stable-sort descending by
similarity, truncate to `top_k`. -/
def EmbeddingCRUD.search_similar (db : DB) (query_vector : List ℤ)
    (modality : Option String) (folder_ids : Option (List Nat))
    (top_k : Nat) (threshold : ℤ) (exclude_deleted : Bool) :
    List (FileRec × ℤ) :=
  let rows := (joinRows db).filter (searchRowPred modality folder_ids exclude_deleted)
  let similar_files := scoreRows query_vector threshold rows
  (List.insertionSort (byKeyDesc (fun p => p.2)) similar_files).take top_k

/-! ## IndexingJobCRUD -/

/-- Update every job row carrying the given id. -/
def updateJobById (l : List JobRec) (i : Nat) (u : JobRec → JobRec) :
    List JobRec :=
  l.map fun g => if g.id == i then u g else g

/-- IndexingJobCRUD.create: a fresh `pending` job row. -/
def IndexingJobCRUD.create (db : DB) (job_type : String)
    (folder_id : Option Nat) : JobRec × DB :=
  let j : JobRec :=
    { id := db.nextJobId, job_type := job_type, folder_id := folder_id,
      status := "pending", total_files := 0, processed_files := 0,
      failed_files := 0, error_message := none, started_at := none,
      completed_at := none }
  (j,
   { db with
      jobs := db.jobs ++ [j]
      nextJobId := db.nextJobId + 1 })

/-- IndexingJobCRUD.get. -/
def IndexingJobCRUD.get (db : DB) (job_id : Nat) : Option JobRec :=
  db.jobs.find? fun j => j.id == job_id

/-- The row-level effect of IndexingJobCRUD.update_status: set the status,
record a non-empty error message, stamp started_at on the first transition
to running and completed_at on entering a terminal status. -/
def updateStatusJobs (jobs : List JobRec) (now : ℤ) (job_id : Nat)
    (status : String) (error_message : Option String) : List JobRec :=
  match jobs.find? (fun j => j.id == job_id) with
  | none => jobs
  | some _ =>
      updateJobById jobs job_id fun j =>
        let j := { j with status := status }
        let j := match error_message with
          | some m => if m == "" then j else { j with error_message := some m }
          | none => j
        if status == "running" && j.started_at == none then
          { j with started_at := some now }
        else if status == "completed" || status == "failed" then
          { j with completed_at := some now }
        else j

/-- IndexingJobCRUD.update_status on the database. -/
def IndexingJobCRUD.update_status (db : DB) (now : ℤ) (job_id : Nat)
    (status : String) (error_message : Option String) : DB :=
  { db with jobs := updateStatusJobs db.jobs now job_id status error_message }

/-- The row-level effect of IndexingJobCRUD.increment_progress. -/
def incProgressJobs (jobs : List JobRec) (job_id : Nat)
    (processed failed : Nat) : List JobRec :=
  match jobs.find? (fun j => j.id == job_id) with
  | none => jobs
  | some _ =>
      updateJobById jobs job_id fun j =>
        { j with
            processed_files := j.processed_files + processed
            failed_files := j.failed_files + failed }

/-- IndexingJobCRUD.increment_progress on the database. -/
def IndexingJobCRUD.increment_progress (db : DB) (job_id : Nat)
    (processed failed : Nat) : DB :=
  { db with jobs := incProgressJobs db.jobs job_id processed failed }

/-- The row-level effect of IndexingJobCRUD.set_total_files. -/
def setTotalJobs (jobs : List JobRec) (job_id : Nat) (total : Nat) :
    List JobRec :=
  match jobs.find? (fun j => j.id == job_id) with
  | none => jobs
  | some _ => updateJobById jobs job_id fun j => { j with total_files := total }

/-- IndexingJobCRUD.set_total_files on the database. -/
def IndexingJobCRUD.set_total_files (db : DB) (job_id : Nat) (total : Nat) :
    DB :=
  { db with jobs := setTotalJobs db.jobs job_id total }

/-! ## DeletionTracker (app/services/deletion_tracker.py) -/

/-- The warning text built by `notify_if_deleted` (the two adjacent
f-string literals of the source concatenate into this one string). -/
def deletionWarning (filename path : String) : String :=
  "Warning: Matching file \x27" ++ filename ++
    "\x27 has been deleted from source. The file was originally located at: "
    ++ path

/-- DeletionTracker.mark_file_deleted: delegates to FileCRUD.mark_deleted. -/
def DeletionTracker.mark_file_deleted (db : DB) (file_path : String) :
    Bool × DB :=
  FileCRUD.mark_deleted db file_path

/-- DeletionTracker.notify_if_deleted: one-shot warning — only a file that
is flagged deleted and not yet notified produces a warning, and doing so
sets the notified flag. -/
def DeletionTracker.notify_if_deleted (db : DB) (file_id : Nat) :
    Option String × DB :=
  match FileCRUD.get db file_id with
  | none => (none, db)
  | some file =>
      if file.is_deleted && !file.deletion_notified then
        (some (deletionWarning file.filename file.path),
         (FileCRUD.mark_deletion_notified db file_id).2)
      else (none, db)

/-! ## SimilarityCalculator (app/core/similarity_calculator.py) -/

/-- Insertion into a Python dict modelled as an association list that
keeps first-insertion order and overwrites in place. -/
def dictInsert {α : Type} (m : List (String × α)) (k : String) (v : α) :
    List (String × α) :=
  if m.any (fun p => p.1 == k) then
    m.map fun p => if p.1 == k then (k, v) else p
  else m ++ [(k, v)]

/-- compute_query_embedding: one query vector per requested target
modality.  Text queries ask the provider once per target modality and
silently drop modalities without a vector; audio/video queries compute one
vector and reuse it for the compatible targets only. -/
def SimilarityCalculator.compute_query_embedding (provider : EmbeddingProvider)
    (query : String) (query_type : String) (target_modalities : List String) :
    List (String × List ℤ) :=
  if query_type == "text" then
    target_modalities.foldl
      (fun acc modality =>
        let emb :=
          if modality == "audio" then provider.textEmbedding query "audio"
          else if modality == "video" then provider.textEmbedding query "video"
          else provider.textEmbedding query "audio_video"
        match emb with
        | some v => dictInsert acc modality v
        | none => acc) []
  else if query_type == "audio" then
    match provider.audioEmbedding query with
    | none => []
    | some v =>
        target_modalities.foldl
          (fun acc modality =>
            if modality == "audio" || modality == "audio_video" then
              dictInsert acc modality v
            else acc) []
  else if query_type == "video" then
    match provider.videoEmbedding query with
    | none => []
    | some v =>
        target_modalities.foldl
          (fun acc modality =>
            if modality == "video" || modality == "audio_video" then
              dictInsert acc modality v
            else acc) []
  else []

/-! ## SearchService (app/services/search_service.py) -/

/-- SearchRequest (schemas.py); top_k is validated to 1..max_top_k before
reaching the service. -/
structure SearchRequest where
  query : String
  query_type : String
  modalities : Option (List String)
  folder_ids : Option (List Nat)
  top_k : Nat
  threshold : ℤ
deriving DecidableEq, Repr

/-- FileMetadata returned with each result. -/
structure FileMetadata where
  id : Nat
  path : String
  filename : String
  modality : String
  file_size : Option ℤ
  mime_type : Option String
  duration_seconds : Option ℤ
  is_deleted : Bool
  indexed_at : Option ℤ
deriving DecidableEq, Repr

/-- One search result row. -/
structure SearchResult where
  file_id : Nat
  path : String
  filename : String
  modality : String
  similarity : ℤ
  metadata : FileMetadata
  is_deleted : Bool
deriving DecidableEq, Repr

/-- SearchResponse (query_time_ms carries no verifiable content and is
omitted). -/
structure SearchResponse where
  results : List SearchResult
  total : Nat
  warnings : Option (List String)
deriving DecidableEq, Repr

/-- `request.modalities or ["audio", "video", "audio_video"]` — `None` and
the empty list are both falsy. -/
def targetModalities (req : SearchRequest) : List String :=
  match req.modalities with
  | none => ["audio", "video", "audio_video"]
  | some l => if l.isEmpty then ["audio", "video", "audio_video"] else l

/-- A scored candidate as accumulated by the merge loop:
`(file, similarity, modality)`. -/
abbrev Scored := FileRec × ℤ × String

/-- Similarity of a scored candidate. -/
def scoreOf (x : Scored) : ℤ := x.2.1

/-- The per-modality scan-and-append loop of SearchService.search: for
each modality in the query-embedding map (in dict order) run
search_similar and append its rows tagged with that modality. -/
def perModalityResults (db : DB) (req : SearchRequest) :
    List (String × List ℤ) → List Scored
  | [] => []
  | (modality, query_emb) :: rest =>
      ((EmbeddingCRUD.search_similar db query_emb (some modality)
          req.folder_ids req.top_k req.threshold true).map
        fun fs => (fs.1, fs.2, modality))
      ++ perModalityResults db req rest

/-- The concatenation of every modality`s top-k list for a request. -/
def allResults (db : DB) (provider : EmbeddingProvider) (req : SearchRequest) :
    List Scored :=
  perModalityResults db req
    (SimilarityCalculator.compute_query_embedding provider req.query
      req.query_type (targetModalities req))

/-- `all_results.sort(key=similarity, reverse=True)` then `[:top_k]`:
stable descending sort of the concatenation, truncated. -/
def mergedResults (db : DB) (provider : EmbeddingProvider)
    (req : SearchRequest) : List Scored :=
  (List.insertionSort (byKeyDesc scoreOf)
    (allResults db provider req)).take req.top_k

/-- Build one SearchResult row from a scored candidate. -/
def mkSearchResult (f : FileRec) (similarity : ℤ) : SearchResult :=
  { file_id := f.id, path := f.path, filename := f.filename,
    modality := f.modality, similarity := similarity,
    metadata :=
      { id := f.id, path := f.path, filename := f.filename,
        modality := f.modality, file_size := f.file_size,
        mime_type := f.mime_type, duration_seconds := f.duration_seconds,
        is_deleted := f.is_deleted, indexed_at := f.indexed_at },
    is_deleted := f.is_deleted }

/-- The response-building loop: for each surviving candidate, consult the
deletion tracker when the file is flagged deleted (threading the database,
since notifying writes the notified flag), and collect rows and warnings
in loop order. -/
def buildResults (tracker_present : Bool) (db : DB) :
    List Scored → List SearchResult × List String × DB
  | [] => ([], [], db)
  | (f, similarity, _) :: rest =>
      let warnDb :=
        if tracker_present && f.is_deleted then
          DeletionTracker.notify_if_deleted db f.id
        else (none, db)
      let (rs, ws, db2) := buildResults tracker_present warnDb.2 rest
      (mkSearchResult f similarity :: rs,
       (match warnDb.1 with
        | some w => w :: ws
        | none => ws),
       db2)

/-- SearchService.search: per-modality scan, stable merge, truncation,
deletion warnings, response assembly.  Returns the response and the
(possibly notified) database. -/
def SearchService.search (db : DB) (provider : EmbeddingProvider)
    (tracker_present : Bool) (req : SearchRequest) : SearchResponse × DB :=
  let query_embeddings :=
    SimilarityCalculator.compute_query_embedding provider req.query
      req.query_type (targetModalities req)
  if query_embeddings.isEmpty then
    ({ results := [], total := 0, warnings := none }, db)
  else
    let merged := mergedResults db provider req
    let out := buildResults tracker_present db merged
    ({ results := out.1, total := out.1.length,
       warnings := if out.2.1.isEmpty then none else some out.2.1 }, out.2.2)

/-! ## FileProcessor (app/core/file_processor.py) -/

/-- FileProcessor.validate_file.  A FileSystem entry stands for an
existing, regular, readable file, which collapses the first three checks
of the source into a lookup; the emptiness and supported-format checks
follow in source order. -/
def FileProcessor.validate_file (fs : FileSystem) (file_path : String) :
    Bool × Option String :=
  match fs.find? (fun e => e.path == file_path) with
  | none => (false, some ("File not found: " ++ file_path))
  | some e =>
      if e.size == 0 then (false, some ("File is empty: " ++ file_path))
      else if !(ModalityDetector.is_supported file_path) then
        (false, some ("Unsupported file format: " ++ file_path))
      else (true, none)

/-- The metadata dict built by FileProcessor.get_file_info (paths are
already absolute in the model; a missing stat yields size 0, but every
call site validates first). -/
structure FileStat where
  path : String
  filename : String
  file_size : ℤ
  modality : String
deriving DecidableEq, Repr

/-- FileProcessor.get_file_info. -/
def FileProcessor.get_file_info (fs : FileSystem) (file_path : String) :
    FileStat :=
  { path := file_path, filename := baseName file_path,
    file_size :=
      match fs.find? (fun e => e.path == file_path) with
      | some e => e.size
      | none => 0,
    modality := (ModalityDetector.detect file_path).getD "" }

/-- FileProcessor.get_mime_type, modelled from the stdlib `mimetypes`
table restricted to the supported extensions (no claim depends on the
exact strings, only on the value being this function of the path). -/
def FileProcessor.get_mime_type (file_path : String) : Option String :=
  let ext := lowerString (pathSuffix file_path)
  if ext == ".mp3" then some "audio/mpeg"
  else if ext == ".wav" then some "audio/x-wav"
  else if ext == ".aac" then some "audio/aac"
  else if ext == ".ogg" then some "audio/ogg"
  else if ext == ".opus" then some "audio/opus"
  else if ext == ".mp4" then some "video/mp4"
  else if ext == ".avi" then some "video/x-msvideo"
  else if ext == ".mov" then some "video/quicktime"
  else if ext == ".webm" then some "video/webm"
  else if ext == ".mkv" then some "video/x-matroska"
  else none

/-! ## IndexingService (app/services/indexing_service.py) -/

/-- The file-info dicts produced by `_scan_folder` and consumed by
`_index_file`. -/
structure FileInfo where
  path : String
  filename : String
  modality : String
deriving DecidableEq, Repr

/-- `_scan_folder`: for each extension allowed by the folder`s modality
filter, collect the files under the folder whose name matches
`*<ext>` (the recursive glob is a path-prefix plus suffix match on the
filesystem list). -/
def IndexingService.scan_folder (fs : FileSystem) (folder_path : String)
    (modality : String) : List FileInfo :=
  let extensions :=
    (if modality == "all" || modality == "audio" then
      ModalityDetector.AUDIO_EXTENSIONS else []) ++
    (if modality == "all" || modality == "video" || modality == "audio_video" then
      ModalityDetector.VIDEO_EXTENSIONS else [])
  extensions.foldl
    (fun acc ext =>
      acc ++ ((fs.filter fun e =>
          strStartsWith e.path folder_path && strEndsWith e.path ext).map
        fun e =>
          { path := e.path, filename := baseName e.path,
            modality := (ModalityDetector.detect e.path).getD "" })) []

/-- The tail of `IndexingService._index_file` once a file row is resolved:
ask the provider for an embedding (a `None` is a silent skip), then upsert
— overwrite every existing embedding row of the file in place and bump
indexed_at, or insert a fresh row typed `<modality>_embeds`. -/
def IndexingService.upsertEmbedding (db : DB) (provider : EmbeddingProvider)
    (now : ℤ) (path modality : String) (file_id : Nat) : DB :=
  match provider.fileEmbedding path modality with
  | none => db
  | some embedding =>
      match EmbeddingCRUD.get_by_file db file_id with
      | [] =>
          (EmbeddingCRUD.create db file_id embedding modality
            (modality ++ "_embeds")).2
      | _ :: _ =>
          let db :=
            { db with embeddings := db.embeddings.map fun e =>
                if e.file_id == file_id then
                  { e with vector := some (serialize_array embedding) }
                else e }
          FileCRUD.update_indexed_at db file_id now

/-- `IndexingService._index_file`: validate, resolve or create the File
row (owning folder = first registered active folder whose path is a
prefix; no match is a silent skip), then upsert the embedding. -/
def IndexingService.index_file (db : DB) (fs : FileSystem)
    (provider : EmbeddingProvider) (now : ℤ) (info : FileInfo) : DB :=
  let path := info.path
  let modality := info.modality
  if !(FileProcessor.validate_file fs path).1 then db
  else
    match FileCRUD.get_by_path db path with
    | some file => IndexingService.upsertEmbedding db provider now path modality file.id
    | none =>
        match (FolderCRUD.list_all db true).find?
            (fun folder => strStartsWith path folder.path) with
        | none => db
        | some folder =>
            let st := FileProcessor.get_file_info fs path
            let created := FileCRUD.create db folder.id path st.filename
              st.modality (some st.file_size) (FileProcessor.get_mime_type path)
            IndexingService.upsertEmbedding created.2 provider now path modality
              created.1.id

/-- The sequential per-file loop of `_perform_indexing`: index each file,
then count it as processed.  The embedded fragment raises no exception, so
the `except` arm that would count a failure is unreachable here. -/
def IndexingService.processFiles (fs : FileSystem) (provider : EmbeddingProvider)
    (now : ℤ) (job_id : Nat) : DB → List FileInfo → DB
  | db, [] => db
  | db, info :: rest =>
      let db1 := IndexingService.index_file db fs provider now info
      let db2 := IndexingJobCRUD.increment_progress db1 job_id 1 0
      IndexingService.processFiles fs provider now job_id db2 rest

/-- The folder list a job scans: a truthy folder_id selects that folder
(kept only when present and active), otherwise all active folders;
`folder_id = 0` is falsy in Python and selects all active folders too. -/
def IndexingService.targetFolders (db : DB) (folder_id : Option Nat) :
    List FolderRec :=
  match folder_id with
  | some fid =>
      if fid == 0 then FolderCRUD.list_all db true
      else
        match FolderCRUD.get db fid with
        | some f => if f.is_active then [f] else []
        | none => []
  | none => FolderCRUD.list_all db true

/-- `IndexingService._perform_indexing`: mark running, enumerate files,
set the total, process sequentially, stamp the folders, mark completed.
(`mode` is received and never used, as in the source.) -/
def IndexingService.perform_indexing (db : DB) (fs : FileSystem)
    (provider : EmbeddingProvider) (now : ℤ) (job_id : Nat)
    (folder_id : Option Nat) (mode : String) : DB :=
  let _ := mode
  let db := IndexingJobCRUD.update_status db now job_id "running" none
  let folders := IndexingService.targetFolders db folder_id
  if folders.isEmpty then
    IndexingJobCRUD.update_status db now job_id "completed" none
  else
    let all_files := folders.foldl
      (fun acc folder => acc ++ IndexingService.scan_folder fs folder.path folder.modality) []
    let db := IndexingJobCRUD.set_total_files db job_id all_files.length
    let db := IndexingService.processFiles fs provider now job_id db all_files
    let db := folders.foldl
      (fun d folder => FolderCRUD.update_last_indexed d folder.id now) db
    IndexingJobCRUD.update_status db now job_id "completed" none

/-- `IndexingService.index_folder`: create the job row and run the scan
(the background task is sequentialized). -/
def IndexingService.index_folder (db : DB) (fs : FileSystem)
    (provider : EmbeddingProvider) (now : ℤ) (folder_id : Option Nat)
    (mode : String) : DB :=
  let job_type := if mode == "full" then "full_scan" else "incremental"
  let created := IndexingJobCRUD.create db job_type folder_id
  IndexingService.perform_indexing created.2 fs provider now created.1.id
    folder_id mode

/-! ## IndexingWorker (app/monitoring/indexer.py, event-driven path) -/

/-- `IndexingWorker._index_file`: validate, look the path up, and *skip
files that have no File row* ("For MVP, we'll skip creating new files
without folder context").  The update arm calls `SerializeToString()` on a
numpy array, which raises AttributeError; the raise is modelled as an
`Except.error` (the caller catches and logs it, leaving the database
unchanged). -/
def IndexingWorker.index_file (db : DB) (fs : FileSystem)
    (provider : EmbeddingProvider) (path : String) : Except String DB :=
  if !(FileProcessor.validate_file fs path).1 then Except.ok db
  else
    let modality := (FileProcessor.get_file_info fs path).modality
    match FileCRUD.get_by_path db path with
    | none => Except.ok db
    | some existing_file =>
        match provider.fileEmbedding path modality with
        | none => Except.ok db
        | some embedding =>
            match EmbeddingCRUD.get_by_file db existing_file.id with
            | [] =>
                Except.ok (EmbeddingCRUD.create db existing_file.id embedding
                  modality (modality ++ "_embeds")).2
            | _ :: _ =>
                Except.error
                  "AttributeError: \x27numpy.ndarray\x27 object has no attribute \x27SerializeToString\x27"

/-- `IndexingWorker._mark_file_deleted`: the delete arm of the event
dispatcher. -/
def IndexingWorker.mark_file_deleted (db : DB) (path : String) : DB :=
  (FileCRUD.mark_deleted db path).2

/-! ## Iterated progress increments (the job-counter effect of the
sequential scan loop) -/

/-- `n` increment_progress(processed=1) steps on the jobs table. -/
def incIterJobs (jobs : List JobRec) (job_id : Nat) : Nat → List JobRec
  | 0 => jobs
  | n + 1 => incIterJobs (incProgressJobs jobs job_id 1 0) job_id n

/-- The File row created by the scan-path per-file procedure for a fresh
path owned by the given folder. -/
def createdFileRec (db : DB) (fs : FileSystem) (folder_id : Nat)
    (path : String) : FileRec :=
  { id := db.nextFileId, folder_id := folder_id, path := path,
    filename := (FileProcessor.get_file_info fs path).filename,
    modality := (FileProcessor.get_file_info fs path).modality,
    file_size := some (FileProcessor.get_file_info fs path).file_size,
    mime_type := FileProcessor.get_mime_type path, duration_seconds := none,
    is_deleted := false, deletion_notified := false, indexed_at := none }

/-! ## Concrete fixtures used by witnesses and counterexamples -/

/-- A registered active folder accepting every modality. -/
def folderMedia : FolderRec :=
  { id := 1, path := "/media/", modality := "all", is_active := true,
    last_indexed_at := none }

/-- Three matching audio files on disk. -/
def fsMedia : FileSystem :=
  [{ path := "/media/a.mp3", size := 10 },
   { path := "/media/b.mp3", size := 10 },
   { path := "/media/c.mp3", size := 10 }]

/-- A database holding only the registered folder. -/
def dbEmpty : DB :=
  { folders := [folderMedia], files := [], embeddings := [], jobs := [],
    nextFileId := 1, nextEmbeddingId := 1, nextJobId := 1 }

/-- A provider that fails on exactly one of the three files. -/
def providerFailB : EmbeddingProvider :=
  { textEmbedding := fun _ _ => none, audioEmbedding := fun _ => none,
    videoEmbedding := fun _ => none,
    fileEmbedding := fun p _ => if p == "/media/b.mp3" then none else some [1] }

/-- A provider that always produces the vector [1]. -/
def providerOk : EmbeddingProvider :=
  { textEmbedding := fun _ _ => some [1], audioEmbedding := fun _ => some [1],
    videoEmbedding := fun _ => some [1], fileEmbedding := fun _ _ => some [1] }

/-- A text-query provider aligned only to the audio modality. -/
def providerTextAudio : EmbeddingProvider :=
  { textEmbedding := fun _ m => if m == "audio" then some [1] else none,
    audioEmbedding := fun _ => none, videoEmbedding := fun _ => none,
    fileEmbedding := fun _ _ => none }

/-- The final job row of the three-file scan: completed, all three files
counted as processed, none as failed. -/
def jobScanDone : JobRec :=
  { id := 1, job_type := "incremental", folder_id := some 1,
    status := "completed", total_files := 3, processed_files := 3,
    failed_files := 0, error_message := none, started_at := some 7,
    completed_at := some 7 }

/-- The freshly created pending job row of the three-file scan. -/
def jobPending : JobRec :=
  { id := 1, job_type := "incremental", folder_id := some 1,
    status := "pending", total_files := 0, processed_files := 0,
    failed_files := 0, error_message := none, started_at := none,
    completed_at := none }

/-- The database right after the job row is created. -/
def dbPending : DB :=
  { folders := [folderMedia], files := [], embeddings := [],
    jobs := [jobPending], nextFileId := 1, nextEmbeddingId := 1,
    nextJobId := 2 }

/-- File row for /media/a.mp3. -/
def fileA : FileRec :=
  { id := 1, folder_id := 1, path := "/media/a.mp3", filename := "a.mp3",
    modality := "audio", file_size := some 10, mime_type := some "audio/mpeg",
    duration_seconds := none, is_deleted := false, deletion_notified := false,
    indexed_at := none }

/-- File row for /media/b.mp3. -/
def fileB : FileRec :=
  { id := 2, folder_id := 1, path := "/media/b.mp3", filename := "b.mp3",
    modality := "audio", file_size := some 10, mime_type := some "audio/mpeg",
    duration_seconds := none, is_deleted := false, deletion_notified := false,
    indexed_at := none }

/-- A soft-deleted file row. -/
def fileGone : FileRec :=
  { id := 1, folder_id := 1, path := "/media/gone.mp3", filename := "gone.mp3",
    modality := "audio", file_size := some 10, mime_type := some "audio/mpeg",
    duration_seconds := none, is_deleted := true, deletion_notified := false,
    indexed_at := none }

/-- Embedding row of fileA (vector [5]). -/
def embA : EmbeddingRec :=
  { id := 1, file_id := 1, modality := "audio",
    embedding_type := "audio_embeds", vector := some (serialize_array [5]) }

/-- Embedding row of fileB (vector [5], an exact score tie with embA). -/
def embB : EmbeddingRec :=
  { id := 2, file_id := 2, modality := "audio",
    embedding_type := "audio_embeds", vector := some (serialize_array [5]) }

/-- Two indexed files whose embeddings tie on the query [1]. -/
def dbTwoTied : DB :=
  { folders := [folderMedia], files := [fileA, fileB],
    embeddings := [embA, embB], jobs := [], nextFileId := 3,
    nextEmbeddingId := 3, nextJobId := 1 }

/-- Embedding row of fileGone (vector [1]). -/
def embGone : EmbeddingRec :=
  { id := 1, file_id := 1, modality := "audio",
    embedding_type := "audio_embeds", vector := some (serialize_array [1]) }

/-- One soft-deleted file whose embedding scores above every used
threshold. -/
def dbDeletedOnly : DB :=
  { folders := [folderMedia], files := [fileGone], embeddings := [embGone],
    jobs := [], nextFileId := 2, nextEmbeddingId := 2, nextJobId := 1 }

/-- An audio-only text search with permissive threshold and cap. -/
def reqAudioText : SearchRequest :=
  { query := "q", query_type := "text", modalities := some ["audio"],
    folder_ids := none, top_k := 10, threshold := 0 }

/-- The scan-entry file-info dict for /media/a.mp3. -/
def infoA : FileInfo :=
  { path := "/media/a.mp3", filename := "a.mp3", modality := "audio" }

/-- Handler state in which the moved source path is still cooling down
(last forwarded at 10, cooldown 2, the move arrives at 11). -/
def stateCooling : HandlerState :=
  { folder_id := 1, cooldown := 2,
    lastEventTime := [("/media/a.mp3", 10)], queue := [] }

/-- A fresh handler state. -/
def stateFresh : HandlerState :=
  { folder_id := 7, cooldown := 2, lastEventTime := [], queue := [] }

/-! ## Helper lemmas -/

/-- find? commutes with a map that does not change the predicate`s
verdict. -/
theorem find?_map_comm {α : Type} (h : α → α) (p : α → Bool)
    (hp : ∀ a, p (h a) = p a) :
    ∀ l : List α, (l.map h).find? p = (l.find? p).map h := by
  intro l
  induction l with
  | nil => rfl
  | cons x xs ih =>
      simp only [List.map_cons, List.find?_cons, hp x]
      cases hpx : p x
      · simpa [hpx] using ih
      · simp [hpx]

/-- In a file table with distinct ids, searching by the id of a member row
returns that very row. -/
theorem find?_id_of_mem :
    ∀ {l : List FileRec}, (l.map (fun f => f.id)).Nodup →
      ∀ {f : FileRec}, f ∈ l → l.find? (fun g => g.id == f.id) = some f := by
  intro l
  induction l with
  | nil => intro _ f hf; cases hf
  | cons x xs ih =>
      intro hnd f hf
      have hnd' := hnd
      rw [List.map_cons, List.nodup_cons] at hnd'
      rcases List.mem_cons.mp hf with rfl | hmem
      · simp [List.find?_cons]
      · have hne : ¬ (x.id == f.id) = true := by
          intro hid
          exact hnd'.1 (by
            rw [show x.id = f.id from by simpa using hid]
            exact List.mem_map_of_mem (fun g => g.id) hmem)
        simp only [List.find?_cons]
        rw [Bool.eq_false_iff.mpr hne]
        exact ih hnd'.2 hmem

/-- The last-forwarded-time map reads back the value just written. -/
theorem lookupTime_setTime_same (m : List (String × ℤ)) (p : String) (t : ℤ) :
    lookupTime (setTime m p t) p = t := by
  induction m with
  | nil => simp [setTime, lookupTime, List.find?_cons]
  | cons e rest ih =>
      obtain ⟨q, u⟩ := e
      simp only [setTime]
      by_cases hq : (q == p) = true
      · rw [if_pos hq]
        simp [lookupTime, List.find?_cons, hq]
      · rw [if_neg hq]
        have hqb : (q == p) = false := Bool.eq_false_iff.mpr hq
        simpa [lookupTime, List.find?_cons, hqb] using ih

/-- Stability of the ranking insertion: inserting an element into a list
never reorders the elements of any fixed score, and the inserted element
goes in front of the equal-scored ones exactly as a stable descending sort
places the earlier element first. -/
theorem filter_orderedInsert {α : Type} (key : α → ℤ) (c : ℤ) (x : α) :
    ∀ l : List α,
      (List.orderedInsert (byKeyDesc key) x l).filter (fun y => key y == c)
        = ((x :: l).filter (fun y => key y == c)) := by
  intro l
  induction l with
  | nil => rfl
  | cons b bs ih =>
      simp only [List.orderedInsert]
      by_cases hr : byKeyDesc key x b
      · rw [if_pos hr]
      · rw [if_neg hr]
        have hlt : key x < key b := lt_of_not_le hr
        by_cases hxc : (key x == c) = true
        · have hbc : (key b == c) = false := by
            have hxc' : key x = c := by simpa using hxc
            have : ¬ key b = c := by
              intro hbc'
              rw [hbc', ← hxc'] at hlt
              exact lt_irrefl _ hlt
            simpa using this
          simp only [List.filter_cons, hbc, hxc, ih]
          simp [List.filter_cons, hbc, hxc]
        · have hxc' : (key x == c) = false := Bool.eq_false_iff.mpr hxc
          simp only [List.filter_cons, ih]
          simp [List.filter_cons, hxc']

/-- Stability of the whole ranking sort: for every score value, the
subsequence of candidates carrying that score is exactly the subsequence
of the unsorted input — the stable descending sort never swaps ties. -/
theorem filter_insertionSort {α : Type} (key : α → ℤ) (c : ℤ) :
    ∀ l : List α,
      (List.insertionSort (byKeyDesc key) l).filter (fun y => key y == c)
        = l.filter (fun y => key y == c) := by
  intro l
  induction l with
  | nil => rfl
  | cons b bs ih =>
      simp only [List.insertionSort]
      rw [filter_orderedInsert key c b]
      simp only [List.filter_cons, ih]

/-- Every row returned by search_similar was scored at or above the
threshold, comes from a non-deleted file when deletion is excluded, and
respects a non-empty folder filter. -/
theorem mem_search_similar {db : DB} {q : List ℤ} {modality : Option String}
    {folder_ids : Option (List Nat)} {top_k : Nat} {threshold : ℤ}
    {exclude_deleted : Bool} {p : FileRec × ℤ}
    (hp : p ∈ EmbeddingCRUD.search_similar db q modality folder_ids top_k
      threshold exclude_deleted) :
    threshold ≤ p.2 ∧
    (exclude_deleted = true → p.1.is_deleted = false) ∧
    (∀ ids, folder_ids = some ids → ids ≠ [] → p.1.folder_id ∈ ids) := by
  have hscored : p ∈ scoreRows q threshold
      ((joinRows db).filter (searchRowPred modality folder_ids exclude_deleted)) := by
    have h1 := (List.take_sublist top_k _).mem hp
    exact (List.perm_insertionSort (byKeyDesc (fun r => r.2)) _).mem_iff.mp h1
  obtain ⟨fe, hfe, heq⟩ := List.mem_filterMap.mp hscored
  have hpred := (List.mem_filter.mp hfe).2
  -- unpack the scoring step
  rcases hvec : fe.2.vector with _ | blob
  · rw [hvec] at heq; cases heq
  · rw [hvec] at heq
    simp only at heq
    by_cases hth : threshold ≤ dotProduct q (deserialize_array blob)
    · rw [if_pos hth] at heq
      obtain rfl : (fe.1, dotProduct q (deserialize_array blob)) = p :=
        Option.some.inj heq
      refine ⟨hth, ?_, ?_⟩
      · intro hexcl
        simp only [searchRowPred, hexcl, Bool.and_eq_true] at hpred
        have := hpred.2
        simpa using this
      · intro ids hids hne
        simp only [searchRowPred, hids, Bool.and_eq_true] at hpred
        have h2 := hpred.1.2
        have hempty : ids.isEmpty = false := by
          cases ids with
          | nil => exact absurd rfl hne
          | cons a as => rfl
        rw [if_neg (by simp [hempty])] at h2
        simpa using h2
    · rw [if_neg hth] at heq; cases heq

/-- search_similar returns a descending (non-strict) ranking. -/
theorem sorted_search_similar (db : DB) (q : List ℤ) (modality : Option String)
    (folder_ids : Option (List Nat)) (top_k : Nat) (threshold : ℤ)
    (exclude_deleted : Bool) :
    (EmbeddingCRUD.search_similar db q modality folder_ids top_k threshold
      exclude_deleted).Pairwise (byKeyDesc (fun r => r.2)) := by
  exact ((List.sorted_insertionSort (byKeyDesc (fun r : FileRec × ℤ => r.2))
      (scoreRows q threshold
        ((joinRows db).filter
          (searchRowPred modality folder_ids exclude_deleted)))).sublist
    (List.take_sublist top_k _))

/-- Any candidate accumulated by the per-modality loop comes from one of
the per-modality search_similar calls, tagged with that modality. -/
theorem mem_perModalityResults {db : DB} {req : SearchRequest}
    {qes : List (String × List ℤ)} {x : Scored}
    (hx : x ∈ perModalityResults db req qes) :
    ∃ m v, (m, v) ∈ qes ∧ x.2.2 = m ∧
      (x.1, x.2.1) ∈ EmbeddingCRUD.search_similar db v (some m) req.folder_ids
        req.top_k req.threshold true := by
  induction qes with
  | nil => cases hx
  | cons mv rest ih =>
      obtain ⟨m, v⟩ := mv
      rcases List.mem_append.mp hx with hleft | hright
      · obtain ⟨fs, hfs, rfl⟩ := List.mem_map.mp hleft
        exact ⟨m, v, List.mem_cons_self _ _, rfl, by simpa using hfs⟩
      · obtain ⟨m', v', hmem, hmod, hsim⟩ := ih hright
        exact ⟨m', v', List.mem_cons_of_mem _ hmem, hmod, hsim⟩

/-- Any merged result comes from some per-modality list (and therefore
inherits its threshold, deletion and folder guarantees). -/
theorem mem_mergedResults {db : DB} {provider : EmbeddingProvider}
    {req : SearchRequest} {x : Scored} (hx : x ∈ mergedResults db provider req) :
    ∃ m v, x.2.2 = m ∧
      (x.1, x.2.1) ∈ EmbeddingCRUD.search_similar db v (some m) req.folder_ids
        req.top_k req.threshold true := by
  have h1 := (List.take_sublist req.top_k _).mem hx
  have h2 := (List.perm_insertionSort (byKeyDesc scoreOf) _).mem_iff.mp h1
  obtain ⟨m, v, _, hmod, hsim⟩ := mem_perModalityResults h2
  exact ⟨m, v, hmod, hsim⟩

/-- The merged ranking is descending by score. -/
theorem sorted_mergedResults (db : DB) (provider : EmbeddingProvider)
    (req : SearchRequest) :
    (mergedResults db provider req).Pairwise (byKeyDesc scoreOf) := by
  exact ((List.sorted_insertionSort (byKeyDesc scoreOf)
      (allResults db provider req)).sublist
    (List.take_sublist req.top_k _))

/-- The rows assembled by the response loop are exactly the merged
candidates in order. -/
theorem buildResults_fst (tracker_present : Bool) :
    ∀ (db : DB) (l : List Scored),
      (buildResults tracker_present db l).1
        = l.map (fun t => mkSearchResult t.1 t.2.1) := by
  intro db l
  induction l generalizing db with
  | nil => rfl
  | cons t rest ih =>
      obtain ⟨f, similarity, m⟩ := t
      simp only [buildResults, List.map_cons]
      rw [ih]

/-- When no surviving candidate is flagged deleted, the response loop
consults no tracker, collects no warning and leaves the database as it
was. -/
theorem buildResults_clean (tracker_present : Bool) :
    ∀ (db : DB) (l : List Scored), (∀ t ∈ l, t.1.is_deleted = false) →
      (buildResults tracker_present db l).2.1 = [] ∧
        (buildResults tracker_present db l).2.2 = db := by
  intro db l
  induction l generalizing db with
  | nil => exact fun _ => ⟨rfl, rfl⟩
  | cons t rest ih =>
      intro hall
      obtain ⟨f, similarity, m⟩ := t
      have hf : f.is_deleted = false := hall _ (List.mem_cons_self _ _)
      have hrest := ih db fun t ht => hall t (List.mem_cons_of_mem _ ht)
      simp only [buildResults, hf, Bool.and_false, if_false]
      exact ⟨by simpa using hrest.1, hrest.2⟩

/-- Per-file indexing (the scan path) never touches the jobs table. -/
theorem jobs_upsertEmbedding (db : DB) (provider : EmbeddingProvider)
    (now : ℤ) (path modality : String) (file_id : Nat) :
    (IndexingService.upsertEmbedding db provider now path modality file_id).jobs
      = db.jobs := by
  unfold IndexingService.upsertEmbedding
  cases provider.fileEmbedding path modality with
  | none => rfl
  | some v =>
      cases EmbeddingCRUD.get_by_file db file_id with
      | nil => rfl
      | cons e es =>
          simp only [FileCRUD.update_indexed_at]
          cases FileCRUD.get { db with embeddings := db.embeddings.map fun e =>
              if e.file_id == file_id then
                { e with vector := some (serialize_array v) } else e } file_id
            <;> rfl

/-- IndexingService.index_file never touches the jobs table. -/
theorem jobs_index_file (db : DB) (fs : FileSystem)
    (provider : EmbeddingProvider) (now : ℤ) (info : FileInfo) :
    (IndexingService.index_file db fs provider now info).jobs = db.jobs := by
  unfold IndexingService.index_file
  by_cases hv : (FileProcessor.validate_file fs info.path).1
  · simp only [hv, Bool.not_true, Bool.false_eq_true, if_false]
    cases FileCRUD.get_by_path db info.path with
    | some file => exact jobs_upsertEmbedding ..
    | none =>
        cases hfo : (FolderCRUD.list_all db true).find?
            (fun folder => strStartsWith info.path folder.path) with
        | none => rfl
        | some folder =>
            simp only
            rw [jobs_upsertEmbedding]
            rfl
  · simp [hv]

/-- The per-file loop`s effect on the jobs table: one processed-file
increment per scanned file, independently of the provider`s successes and
failures. -/
theorem jobs_processFiles (fs : FileSystem) (provider : EmbeddingProvider)
    (now : ℤ) (job_id : Nat) :
    ∀ (l : List FileInfo) (db : DB),
      (IndexingService.processFiles fs provider now job_id db l).jobs
        = incIterJobs db.jobs job_id l.length := by
  intro l
  induction l with
  | nil => intro db; rfl
  | cons info rest ih =>
      intro db
      simp only [IndexingService.processFiles, List.length_cons, incIterJobs]
      rw [ih]
      simp only [IndexingJobCRUD.increment_progress, jobs_index_file]

/-- Stamping a folder leaves the jobs table unchanged. -/
theorem jobs_update_last_indexed (db : DB) (folder_id : Nat) (t : ℤ) :
    (FolderCRUD.update_last_indexed db folder_id t).jobs = db.jobs := by
  unfold FolderCRUD.update_last_indexed
  cases FolderCRUD.get db folder_id <;> rfl

/-- Folding folder stamps leaves the jobs table unchanged. -/
theorem jobs_foldl_update_last_indexed (t : ℤ) :
    ∀ (fl : List FolderRec) (db : DB),
      (fl.foldl (fun d folder => FolderCRUD.update_last_indexed d folder.id t) db).jobs
        = db.jobs := by
  intro fl
  induction fl with
  | nil => intro db; rfl
  | cons fo rest ih =>
      intro db
      simp only [List.foldl_cons]
      rw [ih, jobs_update_last_indexed]

/-- The jobs-table view of a whole scan run: mark running, count the
enumerated files, one processed increment per file, mark completed —
regardless of what the provider returns for each file. -/
theorem perform_indexing_jobs (db : DB) (fs : FileSystem)
    (provider : EmbeddingProvider) (now : ℤ) (job_id : Nat)
    (folder_id : Option Nat) (mode : String) :
    (IndexingService.perform_indexing db fs provider now job_id folder_id mode).jobs
      = (let jobs1 := updateStatusJobs db.jobs now job_id "running" none
         let folders := IndexingService.targetFolders { db with jobs := jobs1 } folder_id
         if folders.isEmpty then
           updateStatusJobs jobs1 now job_id "completed" none
         else
           let all := folders.foldl
             (fun acc folder =>
               acc ++ IndexingService.scan_folder fs folder.path folder.modality) []
           updateStatusJobs
             (incIterJobs (setTotalJobs jobs1 job_id all.length) job_id all.length)
             now job_id "completed" none) := by
  unfold IndexingService.perform_indexing
  simp only [IndexingJobCRUD.update_status]
  by_cases hempty :
      (IndexingService.targetFolders
        { db with jobs := updateStatusJobs db.jobs now job_id "running" none }
        folder_id).isEmpty
  · simp only [hempty, if_true]
  · simp only [hempty, Bool.false_eq_true, if_false]
    rw [jobs_foldl_update_last_indexed, jobs_processFiles]
    rfl

/-! ## Claim theorems -/

/-- C5 (counterexample): a move of a supported file whose source path is
still inside the cooldown window forwards NO delete event at all — only
the destination create — so the delete synthesized for a move is not
exempt from the cooldown check.  (Source last forwarded at 10, cooldown 2,
move at 11.) -/
theorem C5_move_counterexample :
    ModalityDetector.is_supported "/media/a.mp3" = true ∧
    (on_moved stateCooling false "/media/a.mp3" "/media/b.mp3" 11).queue
      = [⟨Action.create, 1, "/media/b.mp3"⟩] ∧
    ((on_moved stateCooling false "/media/a.mp3" "/media/b.mp3" 11).queue.filter
      (fun e => e.action == Action.delete)) = [] := by
  refine ⟨by decide, by decide, by decide⟩

/-- C5 (amended): for every move of a file, the debouncer forwards a
delete for the source path only when the source path passes the
supported-extension check AND the cooldown check (the move-synthesized
delete is debounce-checked, not exempt), followed by a create for the
destination path subject to the same checks against the map updated by the
source`s forwarding. -/
theorem C5_move_delete_cooldown_checked (s : HandlerState)
    (src_path dest_path : String) (now : ℤ) :
    (on_moved s false src_path dest_path now).queue =
      s.queue
      ++ (if ModalityDetector.is_supported src_path = true then
            (if now - lookupTime s.lastEventTime src_path < s.cooldown then []
             else [⟨Action.delete, s.folder_id, src_path⟩])
          else [])
      ++ (if ModalityDetector.is_supported dest_path = true then
            (if now - lookupTime
                (if ModalityDetector.is_supported src_path = true then
                  (if now - lookupTime s.lastEventTime src_path < s.cooldown then
                    s.lastEventTime
                  else setTime s.lastEventTime src_path now)
                else s.lastEventTime) dest_path < s.cooldown then []
             else [⟨Action.create, s.folder_id, dest_path⟩])
          else []) := by
  by_cases hs : ModalityDetector.is_supported src_path = true <;>
    by_cases hd : ModalityDetector.is_supported dest_path = true <;>
      simp [on_moved, should_process, queue_event, hs, hd] <;>
        by_cases hc : now - lookupTime s.lastEventTime src_path < s.cooldown <;>
          (try simp [hs, hd, hc]) <;> (try split_ifs) <;> simp_all

/-- C6 (counterexample): a raw delete event for a path with an unsupported
extension is still enqueued — on_deleted performs no extension check — so
not every unsupported event is dropped before the cooldown. -/
theorem C6_unsupported_delete_enqueued :
    ModalityDetector.is_supported "notes.txt" = false ∧
    (on_deleted stateFresh false "notes.txt").queue
      = [⟨Action.delete, 7, "notes.txt"⟩] := by
  refine ⟨by decide, by decide⟩

/-- C6 (amended): create and modify events for unsupported extensions are
dropped before the cooldown is evaluated (state fully unchanged, cooldown
map untouched), but a standalone delete event is enqueued regardless of
the extension. -/
theorem C6_unsupported_drop (s : HandlerState) (path : String) (now : ℤ)
    (hsup : ModalityDetector.is_supported path = false) :
    on_created s false path now = s ∧
    on_modified s false path now = s ∧
    (on_deleted s false path).queue
      = s.queue ++ [⟨Action.delete, s.folder_id, path⟩] := by
  refine ⟨?_, ?_, rfl⟩ <;> simp [on_created, on_modified, should_process, hsup]

/-- C6 (witness). -/
theorem C6_unsupported_drop_witness :
    ModalityDetector.is_supported "notes.txt" = false ∧
    (on_created stateFresh false "notes.txt" 5 = stateFresh ∧
     on_modified stateFresh false "notes.txt" 5 = stateFresh ∧
     (on_deleted stateFresh false "notes.txt").queue
       = stateFresh.queue ++ [⟨Action.delete, stateFresh.folder_id, "notes.txt"⟩]) :=
  ⟨by decide, C6_unsupported_drop stateFresh "notes.txt" 5 (by decide)⟩

/-- C7 (confirmed): a create or modify event is forwarded exactly when the
elapsed time since the last forwarded event for that path has reached the
cooldown window (the map default is 0), and the last-forwarded-time map is
written only on forwarding; consequently two creates within the window
forward exactly one event and a third create after the window elapses
(measured from the forwarded event) forwards a second one. -/
theorem C7_debounce_cooldown (s0 : HandlerState) (path : String) (t1 t2 t3 : ℤ)
    (hsup : ModalityDetector.is_supported path = true)
    (h1 : s0.cooldown ≤ t1 - lookupTime s0.lastEventTime path)
    (h2 : t2 - t1 < s0.cooldown)
    (h3 : s0.cooldown ≤ t3 - t1) :
    (∀ (s : HandlerState) (q : String) (now : ℤ),
        on_created s false q now =
          if ModalityDetector.is_supported q = true ∧
              s.cooldown ≤ now - lookupTime s.lastEventTime q then
            { s with
                lastEventTime := setTime s.lastEventTime q now
                queue := s.queue ++ [⟨Action.create, s.folder_id, q⟩] }
          else s) ∧
    (∀ (s : HandlerState) (q : String) (now : ℤ),
        on_modified s false q now =
          if ModalityDetector.is_supported q = true ∧
              s.cooldown ≤ now - lookupTime s.lastEventTime q then
            { s with
                lastEventTime := setTime s.lastEventTime q now
                queue := s.queue ++ [⟨Action.modify, s.folder_id, q⟩] }
          else s) ∧
    (on_created (on_created s0 false path t1) false path t2).queue
      = s0.queue ++ [⟨Action.create, s0.folder_id, path⟩] ∧
    (on_created (on_created (on_created s0 false path t1) false path t2)
        false path t3).queue
      = s0.queue ++ [⟨Action.create, s0.folder_id, path⟩,
          ⟨Action.create, s0.folder_id, path⟩] := by
  have hgenC : ∀ (s : HandlerState) (q : String) (now : ℤ),
      on_created s false q now =
        if ModalityDetector.is_supported q = true ∧
            s.cooldown ≤ now - lookupTime s.lastEventTime q then
          { s with
              lastEventTime := setTime s.lastEventTime q now
              queue := s.queue ++ [⟨Action.create, s.folder_id, q⟩] }
        else s := by
    intro s q now
    by_cases hq : ModalityDetector.is_supported q = true
    · by_cases hcool : now - lookupTime s.lastEventTime q < s.cooldown
      · simp [on_created, should_process, hq, hcool, not_le.mpr hcool]
      · simp [on_created, should_process, queue_event, hq, hcool, not_lt.mp hcool]
    · simp [on_created, should_process, hq]
  have hgenM : ∀ (s : HandlerState) (q : String) (now : ℤ),
      on_modified s false q now =
        if ModalityDetector.is_supported q = true ∧
            s.cooldown ≤ now - lookupTime s.lastEventTime q then
          { s with
              lastEventTime := setTime s.lastEventTime q now
              queue := s.queue ++ [⟨Action.modify, s.folder_id, q⟩] }
        else s := by
    intro s q now
    by_cases hq : ModalityDetector.is_supported q = true
    · by_cases hcool : now - lookupTime s.lastEventTime q < s.cooldown
      · simp [on_modified, should_process, hq, hcool, not_le.mpr hcool]
      · simp [on_modified, should_process, queue_event, hq, hcool, not_lt.mp hcool]
    · simp [on_modified, should_process, hq]
  have hlk : lookupTime (setTime s0.lastEventTime path t1) path = t1 :=
    lookupTime_setTime_same s0.lastEventTime path t1
  have e1 : on_created s0 false path t1 =
      { s0 with
          lastEventTime := setTime s0.lastEventTime path t1
          queue := s0.queue ++ [⟨Action.create, s0.folder_id, path⟩] } := by
    rw [hgenC]
    exact if_pos ⟨hsup, h1⟩
  have e2 : on_created (on_created s0 false path t1) false path t2
      = on_created s0 false path t1 := by
    rw [e1, hgenC]
    apply if_neg
    rintro ⟨-, hle⟩
    simp only [hlk] at hle
    exact absurd hle (not_le.mpr h2)
  refine ⟨hgenC, hgenM, ?_, ?_⟩
  · rw [e2, e1]
  · rw [e2, e1, hgenC]
    rw [if_pos ⟨hsup, by simpa [hlk] using h3⟩]
    simp

/-- C7 (witness): the cooldown scenario at a concrete state and times. -/
theorem C7_debounce_cooldown_witness :
    (ModalityDetector.is_supported "a.mp3" = true ∧
     stateFresh.cooldown ≤ 5 - lookupTime stateFresh.lastEventTime "a.mp3" ∧
     (6 : ℤ) - 5 < stateFresh.cooldown ∧
     stateFresh.cooldown ≤ 8 - 5) ∧
    ((∀ (s : HandlerState) (q : String) (now : ℤ),
        on_created s false q now =
          if ModalityDetector.is_supported q = true ∧
              s.cooldown ≤ now - lookupTime s.lastEventTime q then
            { s with
                lastEventTime := setTime s.lastEventTime q now
                queue := s.queue ++ [⟨Action.create, s.folder_id, q⟩] }
          else s) ∧
     (∀ (s : HandlerState) (q : String) (now : ℤ),
        on_modified s false q now =
          if ModalityDetector.is_supported q = true ∧
              s.cooldown ≤ now - lookupTime s.lastEventTime q then
            { s with
                lastEventTime := setTime s.lastEventTime q now
                queue := s.queue ++ [⟨Action.modify, s.folder_id, q⟩] }
          else s) ∧
     (on_created (on_created stateFresh false "a.mp3" 5) false "a.mp3" 6).queue
       = stateFresh.queue ++ [⟨Action.create, stateFresh.folder_id, "a.mp3"⟩] ∧
     (on_created (on_created (on_created stateFresh false "a.mp3" 5) false "a.mp3" 6)
         false "a.mp3" 8).queue
       = stateFresh.queue ++ [⟨Action.create, stateFresh.folder_id, "a.mp3"⟩,
           ⟨Action.create, stateFresh.folder_id, "a.mp3"⟩]) :=
  ⟨⟨by decide, by decide, by decide, by decide⟩,
   C7_debounce_cooldown stateFresh "a.mp3" 5 6 8 (by decide) (by decide)
     (by decide) (by decide)⟩

/-- After an id-keyed write-through, looking the same id up returns the
updated row. -/
theorem get_after_update (l : List FileRec) (i : Nat) (u : FileRec → FileRec)
    (hu : ∀ g, (u g).id = g.id) (f : FileRec)
    (hfind : l.find? (fun g => g.id == i) = some f) :
    (updateFileById l i u).find? (fun g => g.id == i) = some (u f) := by
  unfold updateFileById
  rw [find?_map_comm (fun g => if g.id == i then u g else g)
      (fun g => g.id == i)
      (by intro a; by_cases ha : (a.id == i) = true <;> simp [ha, hu a]),
    hfind]
  have hfi := List.find?_some hfind
  simp only at hfi
  simp [hfi]
  intro h
  exact absurd (by simpa using hfi) h

/-- An id-keyed write-through that does not touch paths commutes with a
path lookup. -/
theorem findpath_after_update (l : List FileRec) (i : Nat) (u : FileRec → FileRec)
    (hu : ∀ g, (u g).path = g.path) (p : String) (f : FileRec)
    (hfind : l.find? (fun g => g.path == p) = some f) :
    (updateFileById l i u).find? (fun g => g.path == p)
      = some (if f.id == i then u f else f) := by
  unfold updateFileById
  rw [find?_map_comm (fun g => if g.id == i then u g else g)
      (fun g => g.path == p)
      (by intro a; by_cases ha : (a.id == i) = true <;> simp [ha, hu a]),
    hfind]
  rfl


/-- C8 (confirmed): notify-once per deletion cycle.  After mark(path) the
first notifyOnce returns the warning naming the file and its original
path and flips the notified flag; an immediate second call returns
nothing; a fresh mark re-arms the warning. -/
theorem C8_notify_once (db : DB) (p : String) (f : FileRec)
    (hf : FileCRUD.get_by_path db p = some f)
    (hids : (db.files.map (fun g => g.id)).Nodup) :
    (DeletionTracker.mark_file_deleted db p).1 = true ∧
    (DeletionTracker.notify_if_deleted
        (DeletionTracker.mark_file_deleted db p).2 f.id).1
      = some (deletionWarning f.filename f.path) ∧
    (DeletionTracker.notify_if_deleted
        (DeletionTracker.notify_if_deleted
          (DeletionTracker.mark_file_deleted db p).2 f.id).2 f.id).1 = none ∧
    (DeletionTracker.mark_file_deleted
        (DeletionTracker.notify_if_deleted
          (DeletionTracker.notify_if_deleted
            (DeletionTracker.mark_file_deleted db p).2 f.id).2 f.id).2 p).1
      = true ∧
    (DeletionTracker.notify_if_deleted
        (DeletionTracker.mark_file_deleted
          (DeletionTracker.notify_if_deleted
            (DeletionTracker.notify_if_deleted
              (DeletionTracker.mark_file_deleted db p).2 f.id).2 f.id).2 p).2
        f.id).1
      = some (deletionWarning f.filename f.path) := by
  have hmem : f ∈ db.files := List.mem_of_find?_eq_some hf
  have hid0 : db.files.find? (fun g => g.id == f.id) = some f :=
    find?_id_of_mem hids hmem
  have hpath0 : db.files.find? (fun g => g.path == p) = some f := hf
  have hbeq : (f.id == f.id) = true := beq_self_eq_true f.id
  -- the first mark
  have e1 : DeletionTracker.mark_file_deleted db p
      = (true, withFiles db (updateFileById db.files f.id markRow)) := by
    unfold DeletionTracker.mark_file_deleted FileCRUD.mark_deleted
      FileCRUD.get_by_path
    rw [hpath0]
    rfl
  have hg1 : FileCRUD.get (withFiles db (updateFileById db.files f.id markRow))
      f.id = some (markRow f) := by
    show (updateFileById db.files f.id markRow).find? (fun g => g.id == f.id)
      = some (markRow f)
    exact get_after_update db.files f.id markRow (fun _ => rfl) f hid0
  -- the first notification fires and flips the flag
  have e2 : DeletionTracker.notify_if_deleted
      (withFiles db (updateFileById db.files f.id markRow)) f.id
      = (some (deletionWarning f.filename f.path),
         withFiles db (updateFileById (updateFileById db.files f.id markRow)
           f.id notifyRow)) := by
    unfold DeletionTracker.notify_if_deleted FileCRUD.mark_deletion_notified
    rw [hg1]
    rfl
  have hg2 : FileCRUD.get (withFiles db (updateFileById
      (updateFileById db.files f.id markRow) f.id notifyRow)) f.id
      = some (notifyRow (markRow f)) := by
    show (updateFileById (updateFileById db.files f.id markRow) f.id
        notifyRow).find? (fun g => g.id == f.id) = some (notifyRow (markRow f))
    exact get_after_update _ f.id notifyRow (fun _ => rfl) _ (by
      show (updateFileById db.files f.id markRow).find? (fun g => g.id == f.id)
        = some (markRow f)
      exact get_after_update db.files f.id markRow (fun _ => rfl) f hid0)
  -- the second notification is silent and changes nothing
  have e3 : DeletionTracker.notify_if_deleted
      (withFiles db (updateFileById (updateFileById db.files f.id markRow)
        f.id notifyRow)) f.id
      = (none,
         withFiles db (updateFileById (updateFileById db.files f.id markRow)
           f.id notifyRow)) := by
    unfold DeletionTracker.notify_if_deleted
    rw [hg2]
    rfl
  -- path lookup still finds the (twice updated) row
  have hp1 : (updateFileById db.files f.id markRow).find?
      (fun g => g.path == p) = some (markRow f) := by
    have h1 := findpath_after_update db.files f.id markRow (fun _ => rfl) p f
      hpath0
    rw [h1, hbeq]
    rfl
  have hp2 : FileCRUD.get_by_path (withFiles db (updateFileById
      (updateFileById db.files f.id markRow) f.id notifyRow)) p
      = some (notifyRow (markRow f)) := by
    show (updateFileById (updateFileById db.files f.id markRow) f.id
        notifyRow).find? (fun g => g.path == p) = some (notifyRow (markRow f))
    have h2 := findpath_after_update (updateFileById db.files f.id markRow)
      f.id notifyRow (fun _ => rfl) p _ hp1
    rw [h2, show ((markRow f).id == f.id) = true from hbeq]
    rfl
  -- the second mark re-arms the cycle
  have e4 : DeletionTracker.mark_file_deleted
      (withFiles db (updateFileById (updateFileById db.files f.id markRow)
        f.id notifyRow)) p
      = (true,
         withFiles db (updateFileById (updateFileById (updateFileById db.files
           f.id markRow) f.id notifyRow) f.id markRow)) := by
    unfold DeletionTracker.mark_file_deleted FileCRUD.mark_deleted
    rw [hp2]
    rfl
  have hg3 : FileCRUD.get (withFiles db (updateFileById (updateFileById
      (updateFileById db.files f.id markRow) f.id notifyRow) f.id markRow))
      f.id = some (markRow (notifyRow (markRow f))) := by
    show (updateFileById (updateFileById (updateFileById db.files f.id markRow)
        f.id notifyRow) f.id markRow).find? (fun g => g.id == f.id)
      = some (markRow (notifyRow (markRow f)))
    exact get_after_update _ f.id markRow (fun _ => rfl) _ (by
      show (updateFileById (updateFileById db.files f.id markRow) f.id
          notifyRow).find? (fun g => g.id == f.id)
        = some (notifyRow (markRow f))
      exact get_after_update _ f.id notifyRow (fun _ => rfl) _ (by
        show (updateFileById db.files f.id markRow).find?
            (fun g => g.id == f.id) = some (markRow f)
        exact get_after_update db.files f.id markRow (fun _ => rfl) f hid0))
  -- the third notification fires again
  have e5 : (DeletionTracker.notify_if_deleted
      (withFiles db (updateFileById (updateFileById (updateFileById db.files
        f.id markRow) f.id notifyRow) f.id markRow)) f.id).1
      = some (deletionWarning f.filename f.path) := by
    unfold DeletionTracker.notify_if_deleted
    rw [hg3]
    rfl
  rw [e1]
  refine ⟨rfl, ?_, ?_, ?_, ?_⟩
  · rw [show (true, withFiles db (updateFileById db.files f.id markRow)).2
        = withFiles db (updateFileById db.files f.id markRow) from rfl, e2]
  · rw [show (true, withFiles db (updateFileById db.files f.id markRow)).2
        = withFiles db (updateFileById db.files f.id markRow) from rfl, e2]
    rw [show (some (deletionWarning f.filename f.path),
        withFiles db (updateFileById (updateFileById db.files f.id markRow)
          f.id notifyRow)).2
        = withFiles db (updateFileById (updateFileById db.files f.id markRow)
            f.id notifyRow) from rfl, e3]
  · rw [show (true, withFiles db (updateFileById db.files f.id markRow)).2
        = withFiles db (updateFileById db.files f.id markRow) from rfl, e2]
    rw [show (some (deletionWarning f.filename f.path),
        withFiles db (updateFileById (updateFileById db.files f.id markRow)
          f.id notifyRow)).2
        = withFiles db (updateFileById (updateFileById db.files f.id markRow)
            f.id notifyRow) from rfl, e3]
    rw [show (none (α := String),
        withFiles db (updateFileById (updateFileById db.files f.id markRow)
          f.id notifyRow)).2
        = withFiles db (updateFileById (updateFileById db.files f.id markRow)
            f.id notifyRow) from rfl, e4]
  · rw [show (true, withFiles db (updateFileById db.files f.id markRow)).2
        = withFiles db (updateFileById db.files f.id markRow) from rfl, e2]
    rw [show (some (deletionWarning f.filename f.path),
        withFiles db (updateFileById (updateFileById db.files f.id markRow)
          f.id notifyRow)).2
        = withFiles db (updateFileById (updateFileById db.files f.id markRow)
            f.id notifyRow) from rfl, e3]
    rw [show (none (α := String),
        withFiles db (updateFileById (updateFileById db.files f.id markRow)
          f.id notifyRow)).2
        = withFiles db (updateFileById (updateFileById db.files f.id markRow)
            f.id notifyRow) from rfl, e4]
    rw [show (true, withFiles db (updateFileById (updateFileById
        (updateFileById db.files f.id markRow) f.id notifyRow) f.id
        markRow)).2
        = withFiles db (updateFileById (updateFileById (updateFileById db.files
            f.id markRow) f.id notifyRow) f.id markRow) from rfl, e5]

/-- C8 (witness): the notify-once cycle on a concrete database. -/
theorem C8_notify_once_witness :
    (FileCRUD.get_by_path dbTwoTied "/media/a.mp3" = some fileA ∧
     (dbTwoTied.files.map (fun g => g.id)).Nodup) ∧
    ((DeletionTracker.mark_file_deleted dbTwoTied "/media/a.mp3").1 = true ∧
     (DeletionTracker.notify_if_deleted
         (DeletionTracker.mark_file_deleted dbTwoTied "/media/a.mp3").2
         fileA.id).1
       = some (deletionWarning fileA.filename fileA.path) ∧
     (DeletionTracker.notify_if_deleted
         (DeletionTracker.notify_if_deleted
           (DeletionTracker.mark_file_deleted dbTwoTied "/media/a.mp3").2
           fileA.id).2 fileA.id).1 = none ∧
     (DeletionTracker.mark_file_deleted
         (DeletionTracker.notify_if_deleted
           (DeletionTracker.notify_if_deleted
             (DeletionTracker.mark_file_deleted dbTwoTied "/media/a.mp3").2
             fileA.id).2 fileA.id).2 "/media/a.mp3").1
       = true ∧
     (DeletionTracker.notify_if_deleted
         (DeletionTracker.mark_file_deleted
           (DeletionTracker.notify_if_deleted
             (DeletionTracker.notify_if_deleted
               (DeletionTracker.mark_file_deleted dbTwoTied "/media/a.mp3").2
               fileA.id).2 fileA.id).2 "/media/a.mp3").2
         fileA.id).1
       = some (deletionWarning fileA.filename fileA.path)) :=
  ⟨⟨by decide, by decide⟩,
   C8_notify_once dbTwoTied "/media/a.mp3" fileA (by decide) (by decide)⟩

/-- C10 (confirmed): an empty folder-id list is falsy in the scan, so it
applies no folder restriction at all — the result is identical to passing
no filter — while a non-empty list restricts every returned row to the
listed folders. -/
theorem C10_empty_folder_filter (db : DB) (q : List ℤ)
    (modality : Option String) (ids : List Nat) (top_k : Nat) (threshold : ℤ)
    (exclude_deleted : Bool) (hne : ids ≠ []) :
    EmbeddingCRUD.search_similar db q modality (some []) top_k threshold
        exclude_deleted
      = EmbeddingCRUD.search_similar db q modality none top_k threshold
          exclude_deleted ∧
    ∀ r ∈ EmbeddingCRUD.search_similar db q modality (some ids) top_k threshold
        exclude_deleted, r.1.folder_id ∈ ids := by
  constructor
  · rfl
  · intro r hr
    exact (mem_search_similar hr).2.2 ids rfl hne

/-- C10 (witness): concrete instance of the folder-filter property. -/
theorem C10_empty_folder_filter_witness :
    ([1] ≠ ([] : List Nat)) ∧
    (EmbeddingCRUD.search_similar dbTwoTied [1] (some "audio") (some []) 10 0
        true
      = EmbeddingCRUD.search_similar dbTwoTied [1] (some "audio") none 10 0
          true ∧
     ∀ r ∈ EmbeddingCRUD.search_similar dbTwoTied [1] (some "audio") (some [1])
        10 0 true, r.1.folder_id ∈ [1]) :=
  ⟨by decide,
   C10_empty_folder_filter dbTwoTied [1] (some "audio") [1] 10 0 true
     (by decide)⟩

/-- C9 (confirmed): upserting an embedding for a file that already has one
never adds a row — every embedding row of the file is overwritten in place
with the freshly serialized vector, rows of other files are untouched, the
file`s indexed timestamp is bumped, and the stored payload deserializes
back to exactly the vector last written. -/
theorem C9_upsert_in_place (db : DB) (fs : FileSystem)
    (provider : EmbeddingProvider) (now : ℤ) (info : FileInfo) (f : FileRec)
    (v : List ℤ)
    (hval : (FileProcessor.validate_file fs info.path).1 = true)
    (hfile : FileCRUD.get_by_path db info.path = some f)
    (hprov : provider.fileEmbedding info.path info.modality = some v)
    (hex : EmbeddingCRUD.get_by_file db f.id ≠ [])
    (hids : (db.files.map (fun g => g.id)).Nodup) :
    (IndexingService.index_file db fs provider now info).embeddings.length
      = db.embeddings.length ∧
    (∀ e ∈ (IndexingService.index_file db fs provider now info).embeddings,
      e.file_id = f.id → e.vector = some (serialize_array v)) ∧
    (∀ e ∈ (IndexingService.index_file db fs provider now info).embeddings,
      e.file_id ≠ f.id → e ∈ db.embeddings) ∧
    FileCRUD.get (IndexingService.index_file db fs provider now info) f.id
      = some { f with indexed_at := some now } ∧
    deserialize_array (serialize_array v) = v := by
  have hmem : f ∈ db.files := List.mem_of_find?_eq_some hfile
  have hid0 : db.files.find? (fun g => g.id == f.id) = some f :=
    find?_id_of_mem hids hmem
  have hfin : IndexingService.index_file db fs provider now info
      = { db with
          embeddings := db.embeddings.map (fun e =>
            if e.file_id == f.id then
              { e with vector := some (serialize_array v) }
            else e)
          files := updateFileById db.files f.id (fun g =>
            { g with indexed_at := some now }) } := by
    unfold IndexingService.index_file IndexingService.upsertEmbedding
    dsimp only
    rw [hval]
    simp only [Bool.not_true, Bool.false_eq_true, if_false]
    rw [hfile]
    dsimp only
    rw [hprov]
    dsimp only
    cases hgb : EmbeddingCRUD.get_by_file db f.id with
    | nil => exact absurd hgb hex
    | cons e0 es =>
        dsimp only
        unfold FileCRUD.update_indexed_at
        rw [show FileCRUD.get { db with embeddings := db.embeddings.map (fun e =>
            if e.file_id == f.id then
              { e with vector := some (serialize_array v) }
            else e) } f.id = some f from find?_id_of_mem hids hmem]
  rw [hfin]
  refine ⟨by simp, ?_, ?_, ?_, ?_⟩
  · intro e he hefid
    obtain ⟨e0, he0, rfl⟩ := List.mem_map.mp he
    by_cases h0 : (e0.file_id == f.id) = true
    · simp [h0]
    · rw [if_neg h0] at hefid ⊢
      exact absurd (by simpa using hefid) (by simpa using h0)
  · intro e he hefid
    obtain ⟨e0, he0, rfl⟩ := List.mem_map.mp he
    by_cases h0 : (e0.file_id == f.id) = true
    · rw [if_pos h0] at hefid
      exact absurd (by simpa using h0) (by simpa using hefid)
    · rw [if_neg h0]
      rw [if_neg h0] at hefid
      exact he0
  · show (updateFileById db.files f.id (fun g =>
        { g with indexed_at := some now })).find? (fun g => g.id == f.id)
      = some { f with indexed_at := some now }
    exact get_after_update db.files f.id (fun g =>
      { g with indexed_at := some now }) (fun _ => rfl) f hid0
  · simp [serialize_array, deserialize_array]

/-- C9 (witness): the in-place upsert on a concrete database. -/
theorem C9_upsert_in_place_witness :
    ((FileProcessor.validate_file fsMedia infoA.path).1 = true ∧
     FileCRUD.get_by_path dbTwoTied infoA.path = some fileA ∧
     providerOk.fileEmbedding infoA.path infoA.modality = some [1] ∧
     EmbeddingCRUD.get_by_file dbTwoTied fileA.id ≠ [] ∧
     (dbTwoTied.files.map (fun g => g.id)).Nodup) ∧
    ((IndexingService.index_file dbTwoTied fsMedia providerOk 7 infoA).embeddings.length
       = dbTwoTied.embeddings.length ∧
     (∀ e ∈ (IndexingService.index_file dbTwoTied fsMedia providerOk 7 infoA).embeddings,
       e.file_id = fileA.id → e.vector = some (serialize_array [1])) ∧
     (∀ e ∈ (IndexingService.index_file dbTwoTied fsMedia providerOk 7 infoA).embeddings,
       e.file_id ≠ fileA.id → e ∈ dbTwoTied.embeddings) ∧
     FileCRUD.get (IndexingService.index_file dbTwoTied fsMedia providerOk 7 infoA)
         fileA.id
       = some { fileA with indexed_at := some 7 } ∧
     deserialize_array (serialize_array [1]) = [1]) :=
  ⟨⟨by decide, by decide, by decide, by decide, by decide⟩,
   C9_upsert_in_place dbTwoTied fsMedia providerOk 7 infoA fileA [1]
     (by decide) (by decide) (by decide) (by decide) (by decide)⟩

/-- C4 (amended): the per-file indexing procedure is NOT shared.  For a
valid supported file with no File record: the scan-job procedure resolves
the owning folder as the first registered active folder whose path is a
prefix and creates the File record with detected modality, size and mime
type (skipping only when no folder matches), while the event-driven
worker procedure skips the file entirely and creates nothing. -/
theorem C4_entry_points_differ (db : DB) (fs : FileSystem)
    (provider : EmbeddingProvider) (now : ℤ) (info : FileInfo)
    (hval : (FileProcessor.validate_file fs info.path).1 = true)
    (habs : FileCRUD.get_by_path db info.path = none)
    (hfresh : EmbeddingCRUD.get_by_file db db.nextFileId = []) :
    IndexingWorker.index_file db fs provider info.path = Except.ok db ∧
    (match (FolderCRUD.list_all db true).find?
        (fun folder => strStartsWith info.path folder.path) with
     | none => IndexingService.index_file db fs provider now info = db
     | some folder =>
        (IndexingService.index_file db fs provider now info).files
          = db.files ++ [createdFileRec db fs folder.id info.path]) := by
  constructor
  · unfold IndexingWorker.index_file
    dsimp only
    rw [hval]
    simp only [Bool.not_true, Bool.false_eq_true, if_false]
    rw [habs]
  · cases hfo : (FolderCRUD.list_all db true).find?
        (fun folder => strStartsWith info.path folder.path) with
    | none =>
        dsimp only
        unfold IndexingService.index_file
        dsimp only
        rw [hval]
        simp only [Bool.not_true, Bool.false_eq_true, if_false]
        rw [habs]
        dsimp only
        rw [hfo]
    | some folder =>
        dsimp only
        unfold IndexingService.index_file IndexingService.upsertEmbedding
        dsimp only
        rw [hval]
        simp only [Bool.not_true, Bool.false_eq_true, if_false]
        rw [habs]
        dsimp only
        rw [hfo]
        dsimp only
        cases hpe : provider.fileEmbedding info.path info.modality with
        | none => rfl
        | some v =>
            dsimp only
            cases hgb : EmbeddingCRUD.get_by_file
                (FileCRUD.create db folder.id info.path
                  (FileProcessor.get_file_info fs info.path).filename
                  (FileProcessor.get_file_info fs info.path).modality
                  (some (FileProcessor.get_file_info fs info.path).file_size)
                  (FileProcessor.get_mime_type info.path)).2
                (FileCRUD.create db folder.id info.path
                  (FileProcessor.get_file_info fs info.path).filename
                  (FileProcessor.get_file_info fs info.path).modality
                  (some (FileProcessor.get_file_info fs info.path).file_size)
                  (FileProcessor.get_mime_type info.path)).1.id with
            | nil => rfl
            | cons e0 es =>
                exact absurd (hgb.symm.trans hfresh) (List.cons_ne_nil e0 es)

/-- C4 (counterexample): a create event for a valid supported file whose
path has no File record, with a registered active folder whose path is a
prefix — the event-driven worker indexes nothing and creates no File
record, while the scan-path procedure would create it; the per-file
procedure is not shared as claimed. -/
theorem C4_worker_skip_counterexample :
    (FileProcessor.validate_file fsMedia "/media/a.mp3").1 = true ∧
    (FolderCRUD.list_all dbEmpty true).find?
        (fun folder => strStartsWith "/media/a.mp3" folder.path)
      = some folderMedia ∧
    IndexingWorker.index_file dbEmpty fsMedia providerOk "/media/a.mp3"
      = Except.ok dbEmpty ∧
    dbEmpty.files = [] ∧
    (IndexingService.index_file dbEmpty fsMedia providerOk 7 infoA).files.length
      = 1 :=
  ⟨by decide, by decide, rfl, rfl, by decide⟩

/-- C4 (witness): the amended two-entry-point behavior at a concrete
database, filesystem and provider. -/
theorem C4_entry_points_differ_witness :
    ((FileProcessor.validate_file fsMedia infoA.path).1 = true ∧
     FileCRUD.get_by_path dbEmpty infoA.path = none ∧
     EmbeddingCRUD.get_by_file dbEmpty dbEmpty.nextFileId = []) ∧
    (IndexingWorker.index_file dbEmpty fsMedia providerOk infoA.path
        = Except.ok dbEmpty ∧
     (match (FolderCRUD.list_all dbEmpty true).find?
         (fun folder => strStartsWith infoA.path folder.path) with
      | none =>
          IndexingService.index_file dbEmpty fsMedia providerOk 7 infoA
            = dbEmpty
      | some folder =>
          (IndexingService.index_file dbEmpty fsMedia providerOk 7 infoA).files
            = dbEmpty.files
              ++ [createdFileRec dbEmpty fsMedia folder.id infoA.path])) :=
  ⟨⟨by decide, by decide, by decide⟩,
   C4_entry_points_differ dbEmpty fsMedia providerOk 7 infoA (by decide)
     (by decide) (by decide)⟩

/-- C1 (amended): for the three-file scan job, whatever the Embedding
Provider returns per file, every file — including provider skips — is
counted as processed: the job ends completed with total_files = 3,
processed_files = 3 and failed_files = 0 (failed_files counts only
per-file exceptions, and a provider failure raises none). -/
theorem C1_provider_skip_counted_processed (provider : EmbeddingProvider) :
    IndexingJobCRUD.get
        (IndexingService.index_folder dbEmpty fsMedia provider 7 (some 1)
          "incremental") 1
      = some jobScanDone := by
  have h0 : IndexingService.index_folder dbEmpty fsMedia provider 7 (some 1)
        "incremental"
      = IndexingService.perform_indexing dbPending fsMedia provider 7 1
          (some 1) "incremental" := rfl
  rw [h0]
  show (IndexingService.perform_indexing dbPending fsMedia provider 7 1
      (some 1) "incremental").jobs.find? (fun j => j.id == 1)
    = some jobScanDone
  rw [perform_indexing_jobs]
  decide

/-- C1 (counterexample): with a provider that fails on exactly one of the
three matching files, the job still ends with processed_files = 3 and
failed_files = 0 — the provider skip is counted as processed, not failed,
contradicting the claimed total_files=3 / processed_files=2 accounting. -/
theorem C1_provider_failure_accounting_counterexample :
    providerFailB.fileEmbedding "/media/b.mp3" "audio" = none ∧
    providerFailB.fileEmbedding "/media/a.mp3" "audio" = some [1] ∧
    providerFailB.fileEmbedding "/media/c.mp3" "audio" = some [1] ∧
    IndexingJobCRUD.get
        (IndexingService.index_folder dbEmpty fsMedia providerFailB 7 (some 1)
          "incremental") 1
      = some jobScanDone ∧
    jobScanDone.status = "completed" ∧
    jobScanDone.total_files = 3 ∧
    jobScanDone.processed_files = 3 ∧
    jobScanDone.failed_files = 0 := by
  refine ⟨by decide, by decide, by decide, by decide, by decide, by decide,
    by decide, by decide⟩

/-- C2 (amended): every returned item scores at or above the threshold,
the result list is sorted descending by score (non-strict: exact ties are
kept adjacent in stable order, so the order is not strictly descending),
its length never exceeds top-k, and it is produced by concatenating the
per-modality top-k lists, stably sorting the concatenation descending and
truncating to the overall top-k; stability is witnessed by the tie
subsequences being preserved for every score value. -/
theorem C2_ranking_merge (db : DB) (provider : EmbeddingProvider)
    (tracker_present : Bool) (req : SearchRequest) :
    (∀ r ∈ (SearchService.search db provider tracker_present req).1.results,
        req.threshold ≤ r.similarity) ∧
    (SearchService.search db provider tracker_present req).1.results.Pairwise
        (fun a b => b.similarity ≤ a.similarity) ∧
    (SearchService.search db provider tracker_present req).1.results.length
        ≤ req.top_k ∧
    mergedResults db provider req
      = (List.insertionSort (byKeyDesc scoreOf)
          (allResults db provider req)).take req.top_k ∧
    (∀ c : ℤ,
      (List.insertionSort (byKeyDesc scoreOf)
          (allResults db provider req)).filter (fun x => scoreOf x == c)
        = (allResults db provider req).filter (fun x => scoreOf x == c)) := by
  have hres : (SearchService.search db provider tracker_present req).1.results
      = if (SimilarityCalculator.compute_query_embedding provider req.query
            req.query_type (targetModalities req)).isEmpty then ([] : List SearchResult)
        else (mergedResults db provider req).map
          (fun t => mkSearchResult t.1 t.2.1) := by
    unfold SearchService.search
    by_cases hqe : (SimilarityCalculator.compute_query_embedding provider
        req.query req.query_type (targetModalities req)).isEmpty
    · rw [if_pos hqe, if_pos hqe]
    · rw [if_neg hqe, if_neg hqe]
      exact buildResults_fst tracker_present db (mergedResults db provider req)
  refine ⟨?_, ?_, ?_, rfl, fun c => filter_insertionSort scoreOf c _⟩
  · intro r hr
    rw [hres] at hr
    by_cases hqe : (SimilarityCalculator.compute_query_embedding provider
        req.query req.query_type (targetModalities req)).isEmpty
    · rw [if_pos hqe] at hr
      cases hr
    · rw [if_neg hqe] at hr
      obtain ⟨t, ht, rfl⟩ := List.mem_map.mp hr
      obtain ⟨m, v, hmod, hsim⟩ := mem_mergedResults ht
      exact (mem_search_similar hsim).1
  · rw [hres]
    by_cases hqe : (SimilarityCalculator.compute_query_embedding provider
        req.query req.query_type (targetModalities req)).isEmpty
    · rw [if_pos hqe]
      exact List.Pairwise.nil
    · rw [if_neg hqe]
      rw [List.pairwise_map]
      exact sorted_mergedResults db provider req
  · rw [hres]
    by_cases hqe : (SimilarityCalculator.compute_query_embedding provider
        req.query req.query_type (targetModalities req)).isEmpty
    · rw [if_pos hqe]
      exact Nat.zero_le _
    · rw [if_neg hqe]
      rw [List.length_map]
      exact List.length_take_le _ _

/-- C2 (counterexample): two stored vectors tie on the query, both survive
the threshold and both are returned — the result list [5, 5] is sorted
descending but NOT strictly descending, refuting the claimed strict
ordering. -/
theorem C2_strict_order_counterexample :
    ((SearchService.search dbTwoTied providerTextAudio true
        reqAudioText).1.results.map (fun r => r.similarity)) = [5, 5] ∧
    ¬ ((SearchService.search dbTwoTied providerTextAudio true
        reqAudioText).1.results.map (fun r => r.similarity)).Pairwise
        (fun a b => b < a) :=
  ⟨by decide, by decide⟩

/-- C3 (amended): the search scan always passes exclude_deleted = true, so
soft-deleted files are excluded from the candidate set entirely; hence no
returned result is flagged deleted, the deletion-warning pass never fires,
the response carries no warnings, and the database is left untouched. -/
theorem C3_deleted_files_excluded (db : DB) (provider : EmbeddingProvider)
    (tracker_present : Bool) (req : SearchRequest) :
    (∀ r ∈ (SearchService.search db provider tracker_present req).1.results,
        r.is_deleted = false) ∧
    (SearchService.search db provider tracker_present req).1.warnings = none ∧
    (SearchService.search db provider tracker_present req).2 = db := by
  have hND : ∀ t ∈ mergedResults db provider req, t.1.is_deleted = false := by
    intro t ht
    obtain ⟨m, v, hmod, hsim⟩ := mem_mergedResults ht
    exact (mem_search_similar hsim).2.1 rfl
  have hclean := buildResults_clean tracker_present db
    (mergedResults db provider req) hND
  by_cases hqe : (SimilarityCalculator.compute_query_embedding provider
      req.query req.query_type (targetModalities req)).isEmpty
  · refine ⟨fun r hr => ?_, ?_, ?_⟩
    · simp [SearchService.search, hqe] at hr
    · simp [SearchService.search, hqe]
    · simp [SearchService.search, hqe]
  · refine ⟨?_, ?_, ?_⟩ <;>
      simp only [SearchService.search, hqe, Bool.false_eq_true, if_false]
    · intro r hr
      have hr2 : r ∈ (mergedResults db provider req).map
          (fun t => mkSearchResult t.1 t.2.1) := by
        rw [← buildResults_fst tracker_present db (mergedResults db provider req)]
        exact hr
      obtain ⟨t, ht, rfl⟩ := List.mem_map.mp hr2
      exact hND t ht
    · rw [hclean.1]
      rfl
    · exact hclean.2

/-- C3 (counterexample): a soft-deleted file whose stored vector scores
above the threshold is entirely absent from the search results (the scan
would return it with the deletion filter off), so deleted files are hidden
rather than included-and-flagged. -/
theorem C3_deleted_hidden_counterexample :
    fileGone.is_deleted = true ∧
    (EmbeddingCRUD.search_similar dbDeletedOnly [1] (some "audio") none 10 0
        false).length = 1 ∧
    (SearchService.search dbDeletedOnly providerTextAudio true
        reqAudioText).1.results = [] :=
  ⟨by decide, by decide, by decide⟩

end MMS
